import Mathlib

/-!
Verification of the PriceProphet core logic (src/index.tsx):
the AI-response normalizer `SimulatedBackend.analyzePrice` and the
elasticity curve generator `SimulatedBackend.calculateConversion`.

JavaScript numbers are modelled as exact rationals (ℚ); the literals
0.05, 1.5, 1.2, 0.8, 0.9, 0.5, 0.1 of the source are taken at their
exact decimal values.  Where the source can produce the non-finite
IEEE values Infinity / -Infinity / NaN (the unguarded division in the
profit-margin computation, arithmetic on absent fields), numbers are
wrapped in `JsNum`, which adjoins those three values to ℚ.  Absent
(`undefined`) JSON fields are modelled with `Option`.  `Math.random()`
draws are modelled as an explicit stream of rationals in [0,1), and,
for the distribution statement, as real coordinates on the unit square
under Lebesgue measure.
-/

namespace PriceProphet

/-- A JavaScript number: a finite value (exact rational) or one of the
three non-finite IEEE values. -/
inductive JsNum where
  | fin (q : ℚ)
  | posInf
  | negInf
  | nan
deriving DecidableEq, Repr

namespace JsNum

/-- Whether a JavaScript number is finite. -/
def finite : JsNum → Bool
  | fin _ => true
  | _ => false

/-- JavaScript subtraction (`a - b`) on the values the normalizer can reach. -/
def sub : JsNum → JsNum → JsNum
  | fin a, fin b => fin (a - b)
  | fin _, posInf => negInf
  | fin _, negInf => posInf
  | posInf, fin _ => posInf
  | negInf, fin _ => negInf
  | posInf, negInf => posInf
  | negInf, posInf => negInf
  | _, _ => nan

/-- JavaScript division (`a / b`); division of a nonzero finite value by
(positive) zero produces a signed infinity, `0 / 0` produces NaN. -/
def div : JsNum → JsNum → JsNum
  | fin a, fin b =>
      if b = 0 then (if a = 0 then nan else if a > 0 then posInf else negInf)
      else fin (a / b)
  | fin _, posInf => fin 0
  | fin _, negInf => fin 0
  | posInf, fin b => if b < 0 then negInf else posInf
  | negInf, fin b => if b < 0 then posInf else negInf
  | _, _ => nan

/-- JavaScript multiplication (`a * b`); `Infinity * 0` is NaN. -/
def mul : JsNum → JsNum → JsNum
  | fin a, fin b => fin (a * b)
  | posInf, fin b => if b = 0 then nan else if b > 0 then posInf else negInf
  | negInf, fin b => if b = 0 then nan else if b > 0 then negInf else posInf
  | fin a, posInf => if a = 0 then nan else if a > 0 then posInf else negInf
  | fin a, negInf => if a = 0 then nan else if a > 0 then negInf else posInf
  | posInf, posInf => posInf
  | negInf, negInf => posInf
  | posInf, negInf => negInf
  | negInf, posInf => negInf
  | _, _ => nan

end JsNum

/-- An `undefined`-able number coerced to a `JsNum` the way JavaScript
arithmetic coerces it: `undefined` becomes NaN. -/
def jsOfOpt : Option ℚ → JsNum
  | none => JsNum.nan
  | some q => JsNum.fin q

/-- Model of `Math.round`: round to the nearest integer, halves toward +∞. -/
def jsRound (q : ℚ) : ℤ := ⌊q + 1/2⌋

/-- Model of `Number(x.toFixed(2))`: round to 2 decimal places (ties
toward +∞, per the `toFixed` specification). -/
def jsRound2 (q : ℚ) : ℚ := (jsRound (q * 100) : ℚ) / 100

/-- Interface `ProductInput` (src/index.tsx lines 29-36). -/
structure ProductInput where
  name : String
  cost : ℚ
  currency : String
  location : String
  category : String
  desiredMargin : ℚ
deriving DecidableEq, Repr

/-- Interface `Competitor` (lines 38-44); `name` and `price` may be `undefined` on the
success path because the source copies them from the payload unchecked. -/
structure Competitor where
  name : Option String
  price : Option ℚ
  stockStatus : String
  trend : String
  history : List JsNum
deriving DecidableEq, Repr

/-- Interface `Seasonality` (lines 46-50). -/
structure Seasonality where
  signal : Option String
  adjustmentFactor : ℚ
  explanation : Option String
deriving DecidableEq, Repr

/-- The `priceRange` component of `PricingResult` (line 54). -/
structure PriceRange where
  min : Option ℚ
  suggested : Option ℚ
  premium : Option ℚ
deriving DecidableEq, Repr

/-- Interface `PricingResult` (lines 52-62).  Fields that the success path copies
from the payload without validation are `Option`-typed (`undefined`
possible); `profitMargin` is a `JsNum` because its computation can
produce non-finite values. -/
structure PricingResult where
  recommendedPrice : Option ℚ
  priceRange : PriceRange
  profitMargin : JsNum
  confidenceScore : Option ℚ
  explanation : Option String
  evidence : Option (List String)
  seasonality : Seasonality
  competitors : List Competitor
  strategy : Option String
deriving DecidableEq, Repr

/-- Interface `ConversionPoint` (lines 64-68). -/
structure ConversionPoint where
  price : ℚ
  estimatedSales : ℤ
  revenue : ℚ
deriving DecidableEq, Repr

/-- A competitor entry of the parsed AI payload (`{name, price, trend}`,
each possibly absent). -/
structure RawCompetitor where
  name : Option String
  price : Option ℚ
  trend : Option String
deriving DecidableEq, Repr

/-- The parsed AI JSON payload.  Every field is `Option`-typed: `none`
models the field being absent (`undefined` after `JSON.parse`). -/
structure RawAiJson where
  recommendedPrice : Option ℚ
  minPrice : Option ℚ
  premiumPrice : Option ℚ
  strategy : Option String
  explanation : Option String
  evidence : Option (List String)
  confidenceScore : Option ℚ
  seasonalitySignal : Option String
  seasonalityFactor : Option ℚ
  seasonalityExplanation : Option String
  competitors : Option (List RawCompetitor)
deriving DecidableEq, Repr

/-- The `Math.random()` draws one competitor entry consumes: one or two
draws for the stock status (the second conditional only evaluates when
the first comparison fails) and six for the synthetic history. -/
structure RandDraws where
  r1 : ℚ
  r2 : ℚ
  hist : ℕ → ℚ

/-- The stock-status draw of line 166:
`Math.random() > 0.8 ? "Low Stock" : (Math.random() > 0.9 ? "Out of Stock" : "In Stock")`
(string literals written here with double quotes).
Polymorphic so the same code can be read over ℚ (execution) and over ℝ
(distribution); 4/5 and 9/10 are the literals 0.8 and 0.9. -/
def stockStatusDraw {α : Type} [LinearOrderedField α] (r1 r2 : α) : String :=
  if r1 > 4/5 then "Low Stock"
  else if r2 > 9/10 then "Out of Stock"
  else "In Stock"

/-- One synthetic history sample (lines 168-172):
`Number((c.price + (Math.random() - 0.5) * (c.price * 0.1)).toFixed(2))`;
arithmetic on an absent price yields NaN. -/
def historySample (price : Option ℚ) (r : ℚ) : JsNum :=
  match price with
  | none => JsNum.nan
  | some p => JsNum.fin (jsRound2 (p + (r - 1/2) * (p * (1/10))))

/-- The competitor post-processing of lines 163-173: stock status by the
weighted draw, `trend` defaulted through the or-else idiom of line 167
(absent or empty string become the literal stable), and a 6-sample
history, reversed. -/
def mkCompetitor (c : RawCompetitor) (d : RandDraws) : Competitor :=
  { name := c.name
    price := c.price
    stockStatus := stockStatusDraw d.r1 d.r2
    trend := match c.trend with
      | none => "stable"
      | some t => if t = "" then "stable" else t
    history := ((List.range 6).map (fun j => historySample c.price (d.hist j))).reverse }

/-- The `profitMargin` expression of line 182:
`((data.recommendedPrice - input.cost) / data.recommendedPrice) * 100`,
with JavaScript semantics (unguarded division). -/
def profitMarginJs (recommendedPrice : Option ℚ) (cost : ℚ) : JsNum :=
  JsNum.mul (JsNum.div (JsNum.sub (jsOfOpt recommendedPrice) (JsNum.fin cost))
    (jsOfOpt recommendedPrice)) (JsNum.fin 100)

/-- The success branch of `analyzePrice` (lines 160-193): the parsed
payload is shaped into a `PricingResult` with no field validation;
`rand i` supplies the random draws consumed by competitor entry `i`. -/
def normalizeSuccess (data : RawAiJson) (input : ProductInput)
    (rand : ℕ → RandDraws) : PricingResult :=
  { recommendedPrice := data.recommendedPrice
    priceRange :=
      { min := data.minPrice
        suggested := data.recommendedPrice
        premium := data.premiumPrice }
    profitMargin := profitMarginJs data.recommendedPrice input.cost
    confidenceScore := data.confidenceScore
    explanation := data.explanation
    evidence := data.evidence
    seasonality :=
      { signal := data.seasonalitySignal
        adjustmentFactor := match data.seasonalityFactor with
          | none => 1
          | some f => if f = 0 then 1 else f
        explanation := data.seasonalityExplanation }
    competitors := (data.competitors.getD []).mapIdx (fun i c => mkCompetitor c (rand i))
    strategy := data.strategy }

/-- The catch branch of `analyzePrice` (lines 195-210): the deterministic
cost-plus fallback.  `basePrice` (unrounded) feeds the price range;
`recommendedPrice` is `Math.round(basePrice * 100) / 100`; `profitMargin`
is the `desiredMargin` of the input, verbatim. -/
def fallback (input : ProductInput) : PricingResult :=
  let basePrice : ℚ := input.cost * (1 + input.desiredMargin / 100)
  { recommendedPrice := some ((jsRound (basePrice * 100) : ℚ) / 100)
    priceRange := { min := some basePrice, suggested := some basePrice,
                    premium := some (basePrice * (6/5)) }
    profitMargin := JsNum.fin input.desiredMargin
    confidenceScore := some 50
    explanation := some "Fallback pricing calculation due to service interruption."
    evidence := some ["Cost basis calculation"]
    seasonality := { signal := some "Neutral", adjustmentFactor := 1,
                     explanation := some "No data" }
    competitors := []
    strategy := some "Cost-Plus" }

/-- Function `SimulatedBackend.analyzePrice` (lines 128-211).  `outcome` is the
joint result of the external call and `JSON.parse`: `.ok data` when both
succeeded with a parseable payload, `.error` when the call or the parse
threw (the `catch` fires and the fallback is returned). -/
def analyzePrice (outcome : Except Unit RawAiJson) (input : ProductInput)
    (rand : ℕ → RandDraws) : PricingResult :=
  match outcome with
  | Except.ok data => normalizeSuccess data input rand
  | Except.error _ => fallback input

/-- Function `SimulatedBackend.calculateConversion` (lines 213-238): for each
offset i in -5..5 the candidate price `p = currentPrice + i * step`
(step = currentPrice * 0.05) is skipped when `p ≤ cost`, otherwise a
point is emitted with elasticity-1.5 demand, baseline 100. -/
def calculateConversion (currentPrice cost : ℚ) : List ConversionPoint :=
  let step : ℚ := currentPrice * (5/100)
  (List.range 11).filterMap (fun k =>
    let i : ℤ := (k : ℤ) - 5
    let p : ℚ := currentPrice + i * step
    if p ≤ cost then none
    else
      let elasticity : ℚ := 3/2
      let pctChangePrice : ℚ := (p - currentPrice) / currentPrice
      let pctChangeDemand : ℚ := -elasticity * pctChangePrice
      let estimatedSales : ℤ := max 0 (jsRound (100 * (1 + pctChangeDemand)))
      some { price := jsRound2 p
             estimatedSales := estimatedSales
             revenue := jsRound2 (p * (estimatedSales : ℚ)) })

/-- The point the emit branch of lines 223-235 builds, as a function of
the offset `i`; `calculateConversion` is definitionally the filterMap of
this over the guard. -/
def curvePoint (currentPrice : ℚ) (i : ℤ) : ConversionPoint :=
  let p : ℚ := currentPrice + i * (currentPrice * (5/100))
  let elasticity : ℚ := 3/2
  let pctChangePrice : ℚ := (p - currentPrice) / currentPrice
  let pctChangeDemand : ℚ := -elasticity * pctChangePrice
  let estimatedSales : ℤ := max 0 (jsRound (100 * (1 + pctChangeDemand)))
  { price := jsRound2 p
    estimatedSales := estimatedSales
    revenue := jsRound2 (p * (estimatedSales : ℚ)) }

/-- A test fixture: cost 100, desired margin 20 (the concrete input of
the fallback example in the claims). -/
def inputA : ProductInput :=
  { name := "Gadget", cost := 100, currency := "USD", location := "Austin",
    category := "General", desiredMargin := 20 }

/-- A test fixture whose fallback base price 1.004 needs rounding:
cost 1, desired margin 0.4. -/
def inputB : ProductInput :=
  { name := "Gadget", cost := 1, currency := "USD", location := "Austin",
    category := "General", desiredMargin := 2/5 }

/-- A deterministic stand-in for the random stream (every draw 0). -/
def rand0 : ℕ → RandDraws := fun _ => { r1 := 0, r2 := 0, hist := fun _ => 0 }

/-- A parseable payload with every field absent. -/
def emptyRaw : RawAiJson :=
  { recommendedPrice := none, minPrice := none, premiumPrice := none,
    strategy := none, explanation := none, evidence := none,
    confidenceScore := none, seasonalitySignal := none, seasonalityFactor := none,
    seasonalityExplanation := none, competitors := none }

/-- A payload whose recommendedPrice is the literal 0 and whose other
fields are absent. -/
def zeroPriceRaw : RawAiJson := { emptyRaw with recommendedPrice := some 0 }

/-- A payload carrying recommendedPrice 50 and an explicit
seasonalityFactor 0. -/
def sampleRaw : RawAiJson :=
  { emptyRaw with recommendedPrice := some 50, seasonalityFactor := some 0 }

lemma list_filterMap_if {α : Type} (l : List ℕ) (c : ℕ → Prop) [DecidablePred c]
    (g : ℕ → α) :
    (l.filterMap (fun k => if c k then none else some (g k))) =
      (l.filter (fun k => decide ¬ c k)).map g := by
  induction l with
  | nil => rfl
  | cons a t ih =>
      by_cases h : c a <;>
        simp [List.filterMap_cons, List.filter_cons, h, ih]

lemma range_eleven : List.range 11 = [0, 1, 2, 3, 4, 5, 6, 7, 8, 9, 10] := by
  decide

/-- The curve generator emits, in offset order, `curvePoint` exactly at
the indices whose candidate price beats the cost. -/
lemma calculateConversion_eq (currentPrice cost : ℚ) :
    calculateConversion currentPrice cost =
      ((List.range 11).filter
        (fun (k : ℕ) => decide (cost <
          currentPrice + (((k : ℤ) - 5 : ℤ) : ℚ) * (currentPrice * (5/100))))).map
        (fun (k : ℕ) => curvePoint currentPrice ((k : ℤ) - 5)) := by
  calc calculateConversion currentPrice cost
      = (List.range 11).filterMap
          (fun (k : ℕ) =>
            if currentPrice + (((k : ℤ) - 5 : ℤ) : ℚ) * (currentPrice * (5/100)) ≤ cost
            then none else some (curvePoint currentPrice ((k : ℤ) - 5))) := rfl
    _ = ((List.range 11).filter
          (fun (k : ℕ) => decide
            ¬ (currentPrice + (((k : ℤ) - 5 : ℤ) : ℚ) * (currentPrice * (5/100)) ≤ cost))).map
          (fun (k : ℕ) => curvePoint currentPrice ((k : ℤ) - 5)) :=
        list_filterMap_if (List.range 11) _ _
    _ = _ := by
        refine congrArg (List.map _) (List.filter_congr ?_)
        intro k _
        rw [decide_eq_decide]
        exact not_le

/-- The curve at currentPrice 100, cost 50, evaluated. -/
lemma calculateConversion_100_50 :
    calculateConversion 100 50 =
      [ ⟨75, 138, 10350⟩, ⟨80, 130, 10400⟩, ⟨85, 123, 10455⟩, ⟨90, 115, 10350⟩,
        ⟨95, 108, 10260⟩, ⟨100, 100, 10000⟩, ⟨105, 93, 9765⟩, ⟨110, 85, 9350⟩,
        ⟨115, 78, 8970⟩, ⟨120, 70, 8400⟩, ⟨125, 63, 7875⟩ ] := by
  rw [calculateConversion, range_eleven]
  norm_num [List.filterMap, jsRound, jsRound2]

/-- The curve at currentPrice 50, cost 50, evaluated. -/
lemma calculateConversion_50_50 :
    calculateConversion 50 50 =
      [ ⟨105/2, 93, 9765/2⟩, ⟨55, 85, 4675⟩, ⟨115/2, 78, 4485⟩,
        ⟨60, 70, 4200⟩, ⟨125/2, 63, 7875/2⟩ ] := by
  rw [calculateConversion, range_eleven]
  norm_num [List.filterMap, jsRound, jsRound2]

/-- The curve at currentPrice 0.03, cost 0, evaluated. -/
lemma calculateConversion_003_0 :
    calculateConversion (3/100) 0 =
      [ ⟨1/50, 138, 311/100⟩, ⟨1/50, 130, 78/25⟩, ⟨3/100, 123, 157/50⟩,
        ⟨3/100, 115, 311/100⟩, ⟨3/100, 108, 77/25⟩, ⟨3/100, 100, 3⟩,
        ⟨3/100, 93, 293/100⟩, ⟨3/100, 85, 281/100⟩, ⟨3/100, 78, 269/100⟩,
        ⟨1/25, 70, 63/25⟩, ⟨1/25, 63, 59/25⟩ ] := by
  rw [calculateConversion, range_eleven]
  norm_num [List.filterMap, jsRound, jsRound2]

/-- C4: generateCurve(100, 50) returns exactly 11 points, in ascending
offset (hence ascending price) order; index 5 (offset 0) is
(100, 100, 10000), index 10 (offset 5) is (125, 63, 7875), and index 0
(offset -5) has price 75. -/
theorem C4_curve_at_100_50 :
    (calculateConversion 100 50).length = 11 ∧
    List.Pairwise (fun a b => a.price < b.price) (calculateConversion 100 50) ∧
    (calculateConversion 100 50)[5]? =
      some { price := 100, estimatedSales := 100, revenue := 10000 } ∧
    (calculateConversion 100 50)[10]? =
      some { price := 125, estimatedSales := 63, revenue := 7875 } ∧
    ((calculateConversion 100 50)[0]?).map ConversionPoint.price = some 75 := by
  rw [calculateConversion_100_50]
  refine ⟨rfl, ?_, rfl, rfl, rfl⟩
  norm_num [List.pairwise_cons]

/-- C5: a point is emitted exactly for the offsets i in -5..5 whose
candidate price currentPrice + i × 0.05 × currentPrice is strictly above
cost (index k of range 11 carries offset k - 5); hence never more than
11 points; and generateCurve(50, 50) emits exactly the five points for
offsets 1..5, each with price above 50. -/
theorem C5_guard_characterization (currentPrice cost : ℚ) :
    calculateConversion currentPrice cost =
      ((List.range 11).filter
        (fun (k : ℕ) => decide (cost <
          currentPrice + ((k : ℚ) - 5) * (5/100) * currentPrice))).map
        (fun (k : ℕ) => curvePoint currentPrice ((k : ℤ) - 5)) ∧
    (calculateConversion currentPrice cost).length ≤ 11 ∧
    calculateConversion 50 50 =
      [ ⟨105/2, 93, 9765/2⟩, ⟨55, 85, 4675⟩, ⟨115/2, 78, 4485⟩,
        ⟨60, 70, 4200⟩, ⟨125/2, 63, 7875/2⟩ ] ∧
    ∀ pt ∈ calculateConversion 50 50, 50 < pt.price := by
  refine ⟨?_, ?_, calculateConversion_50_50, ?_⟩
  · rw [calculateConversion_eq]
    refine congrArg (List.map _) (List.filter_congr ?_)
    intro k _
    rw [decide_eq_decide]
    have e : currentPrice + (((k : ℤ) - 5 : ℤ) : ℚ) * (currentPrice * (5/100)) =
        currentPrice + ((k : ℚ) - 5) * (5/100) * currentPrice := by
      push_cast
      ring
    rw [e]
  · rw [calculateConversion_eq, List.length_map]
    exact le_trans (List.length_filter_le _ _) (by simp)
  · rw [calculateConversion_50_50]
    intro pt hpt
    simp only [List.mem_cons, List.not_mem_nil, or_false] at hpt
    rcases hpt with h | h | h | h | h <;> rw [h] <;> norm_num

/-- C6: for currentPrice ≤ 0 and cost ≥ 0 the curve is empty and every
candidate price fails the guard, so the emit branch containing the
division by currentPrice is never executed. -/
theorem C6_nonpositive_price_empty (currentPrice cost : ℚ)
    (hp : currentPrice ≤ 0) (hc : 0 ≤ cost) :
    calculateConversion currentPrice cost = [] ∧
    ∀ k ∈ List.range 11,
      currentPrice + ((k : ℚ) - 5) * (currentPrice * (5/100)) ≤ cost := by
  have key : ∀ k ∈ List.range 11,
      currentPrice + ((k : ℚ) - 5) * (currentPrice * (5/100)) ≤ cost := by
    intro k _
    have hk0 : (0 : ℚ) ≤ (k : ℚ) := Nat.cast_nonneg k
    nlinarith [mul_nonneg hk0 (neg_nonneg.mpr hp)]
  refine ⟨?_, key⟩
  rw [calculateConversion_eq]
  have hnil : (List.range 11).filter
      (fun (k : ℕ) => decide (cost <
        currentPrice + (((k : ℤ) - 5 : ℤ) : ℚ) * (currentPrice * (5/100)))) = [] := by
    refine List.filter_eq_nil_iff.mpr ?_
    intro k hk
    have h := key k hk
    simp only [decide_eq_true_eq, not_lt]
    push_cast
    push_cast at h
    linarith
  rw [hnil]
  rfl

/-- Witness for C6 at currentPrice = 0, cost = 0. -/
theorem C6_nonpositive_price_empty_witness :
    calculateConversion 0 0 = [] ∧
    ∀ k ∈ List.range 11, (0 : ℚ) + ((k : ℚ) - 5) * (0 * (5/100)) ≤ 0 :=
  C6_nonpositive_price_empty 0 0 le_rfl le_rfl

/-- C9 counterexample: in generateCurve(0.03, 0) the point at index 6
(offset 1) has price 0.03, estimatedSales 93 and revenue 2.93, while
rounding price × estimatedSales to 2 decimals gives 2.79: revenue is not
price × estimatedSales computed from the rounded price field. -/
theorem C9_counterexample :
    (calculateConversion (3/100) 0)[6]? =
      some { price := 3/100, estimatedSales := 93, revenue := 293/100 } ∧
    jsRound2 ((3/100) * ((93 : ℤ) : ℚ)) = 279/100 ∧
    (293/100 : ℚ) ≠ 279/100 := by
  rw [calculateConversion_003_0]
  refine ⟨rfl, ?_, by norm_num⟩
  norm_num [jsRound2, jsRound]

/-- C9 amended: every emitted point has price = round2(p) and
revenue = round2(p × estimatedSales) for its unrounded candidate price
p; the revenue rounding applies to the unrounded candidate price, not to
the rounded price field. -/
theorem C9_revenue_from_unrounded_price (currentPrice cost : ℚ)
    (pt : ConversionPoint) (h : pt ∈ calculateConversion currentPrice cost) :
    ∃ p : ℚ, pt.price = jsRound2 p ∧
      pt.revenue = jsRound2 (p * (pt.estimatedSales : ℚ)) := by
  rw [calculateConversion_eq] at h
  obtain ⟨k, _, rfl⟩ := List.mem_map.mp h
  exact ⟨currentPrice + (((k : ℤ) - 5 : ℤ) : ℚ) * (currentPrice * (5/100)), rfl, rfl⟩

/-- Witness for C9 at the point (100, 100, 10000) of generateCurve(100, 50). -/
theorem C9_revenue_from_unrounded_price_witness :
    ({ price := 100, estimatedSales := 100, revenue := 10000 } : ConversionPoint) ∈
      calculateConversion 100 50 ∧
    ∃ p : ℚ,
      ({ price := 100, estimatedSales := 100, revenue := 10000 } : ConversionPoint).price =
        jsRound2 p ∧
      ({ price := 100, estimatedSales := 100, revenue := 10000 } : ConversionPoint).revenue =
        jsRound2 (p *
          (({ price := 100, estimatedSales := 100, revenue := 10000 } : ConversionPoint).estimatedSales : ℚ)) :=
  have hmem : ({ price := 100, estimatedSales := 100, revenue := 10000 } : ConversionPoint) ∈
      calculateConversion 100 50 := by
    rw [calculateConversion_100_50]
    simp
  ⟨hmem, C9_revenue_from_unrounded_price 100 50 _ hmem⟩

/-- C1 counterexample: on the fallback path with cost 100 and desired
margin 20, the result has recommendedPrice 120 but profitMargin 20,
while (120 - 100) / 120 × 100 = 50/3 ≈ 16.67: profitMargin is taken
verbatim from desiredMargin, not recomputed. -/
theorem C1_counterexample :
    (analyzePrice (Except.error ()) inputA rand0).recommendedPrice = some 120 ∧
    (analyzePrice (Except.error ()) inputA rand0).profitMargin = JsNum.fin 20 ∧
    ((120 : ℚ) - 100) / 120 * 100 = 50/3 ∧
    (20 : ℚ) ≠ 50/3 := by
  refine ⟨?_, rfl, by norm_num, by norm_num⟩
  show some ((jsRound ((inputA.cost * (1 + inputA.desiredMargin / 100)) * 100) : ℚ) / 100) =
    some 120
  norm_num [inputA, jsRound]

/-- C1 amended: on the success path profitMargin is recomputed as
(recommendedPrice - cost) / recommendedPrice × 100 from the original
cost (for any nonzero recommendedPrice); on the fallback path it is
taken verbatim from the desiredMargin of the input instead. -/
theorem C1_profitMargin_paths (data : RawAiJson) (input : ProductInput)
    (rand : ℕ → RandDraws) (rp : ℚ) (hrp : data.recommendedPrice = some rp)
    (h0 : rp ≠ 0) :
    (analyzePrice (Except.ok data) input rand).profitMargin =
      JsNum.fin ((rp - input.cost) / rp * 100) ∧
    (analyzePrice (Except.error ()) input rand).profitMargin =
      JsNum.fin input.desiredMargin := by
  constructor
  · show (profitMarginJs data.recommendedPrice input.cost) = _
    rw [hrp]
    simp only [profitMarginJs, jsOfOpt, JsNum.sub, JsNum.div, JsNum.mul, if_neg h0]
  · rfl

/-- Witness for C1 at a payload with recommendedPrice 50 and the
cost-100 margin-20 input. -/
theorem C1_profitMargin_paths_witness :
    (analyzePrice (Except.ok sampleRaw) inputA rand0).profitMargin =
      JsNum.fin ((50 - inputA.cost) / 50 * 100) ∧
    (analyzePrice (Except.error ()) inputA rand0).profitMargin =
      JsNum.fin inputA.desiredMargin :=
  C1_profitMargin_paths sampleRaw inputA rand0 50 rfl (by norm_num)

/-- C2 counterexample: the parseable payload with every required field
absent is not rejected — the normalizer builds a success-path result
(with pass-through `undefined` fields) that differs from the fallback. -/
theorem C2_counterexample :
    (analyzePrice (Except.ok emptyRaw) inputA rand0).explanation = none ∧
    (analyzePrice (Except.error ()) inputA rand0).explanation =
      some "Fallback pricing calculation due to service interruption." ∧
    analyzePrice (Except.ok emptyRaw) inputA rand0 ≠
      analyzePrice (Except.error ()) inputA rand0 := by
  refine ⟨rfl, rfl, ?_⟩
  intro h
  have hx := congrArg PricingResult.explanation h
  simp only [analyzePrice, normalizeSuccess, fallback, emptyRaw] at hx
  exact Option.noConfusion hx

/-- C2 amended: the source performs no required-field validation at all:
every parseable payload — even with every required field absent — yields
a success-path PricingResult whose fields are passed through verbatim
(absent fields flow in as `undefined`); the fallback is taken only when
the external call or JSON.parse itself throws. -/
theorem C2_no_validation (data : RawAiJson) (input : ProductInput)
    (rand : ℕ → RandDraws) :
    (analyzePrice (Except.ok data) input rand).recommendedPrice = data.recommendedPrice ∧
    (analyzePrice (Except.ok data) input rand).priceRange.min = data.minPrice ∧
    (analyzePrice (Except.ok data) input rand).priceRange.premium = data.premiumPrice ∧
    (analyzePrice (Except.ok data) input rand).explanation = data.explanation ∧
    (analyzePrice (Except.ok data) input rand).evidence = data.evidence ∧
    (analyzePrice (Except.ok data) input rand).strategy = data.strategy ∧
    analyzePrice (Except.error ()) input rand = fallback input :=
  ⟨rfl, rfl, rfl, rfl, rfl, rfl, rfl⟩

/-- C3 counterexample: for cost 1, desiredMargin 0.4 the fallback base
price is 1.004; recommendedPrice is rounded to 1 but priceRange.min
keeps the unrounded 1.004, so min = suggested = recommendedPrice fails. -/
theorem C3_counterexample :
    (analyzePrice (Except.error ()) inputB rand0).recommendedPrice = some 1 ∧
    (analyzePrice (Except.error ()) inputB rand0).priceRange.min = some (251/250) ∧
    (analyzePrice (Except.error ()) inputB rand0).priceRange.min ≠
      (analyzePrice (Except.error ()) inputB rand0).recommendedPrice := by
  have h1 : (analyzePrice (Except.error ()) inputB rand0).recommendedPrice = some 1 := by
    show some ((jsRound ((inputB.cost * (1 + inputB.desiredMargin / 100)) * 100) : ℚ) / 100) =
      some 1
    norm_num [inputB, jsRound]
  have h2 : (analyzePrice (Except.error ()) inputB rand0).priceRange.min = some (251/250) := by
    show some (inputB.cost * (1 + inputB.desiredMargin / 100)) = some (251/250)
    norm_num [inputB]
  refine ⟨h1, h2, ?_⟩
  rw [h1, h2]
  norm_num

/-- C3 amended: on every failure the fallback result is deterministic:
recommendedPrice = cost × (1 + desiredMargin/100) rounded to 2 decimals,
but priceRange keeps min = suggested = the unrounded base price and
premium = unrounded base price × 1.2; confidenceScore = 50, strategy
Cost-Plus, one fixed evidence note, neutral seasonality (factor 1) and
no competitors; at cost 100, margin 20 the recommendedPrice is 120. -/
theorem C3_fallback_shape (input : ProductInput) (rand : ℕ → RandDraws) :
    (analyzePrice (Except.error ()) input rand).recommendedPrice =
      some (jsRound2 (input.cost * (1 + input.desiredMargin / 100))) ∧
    (analyzePrice (Except.error ()) input rand).priceRange.min =
      some (input.cost * (1 + input.desiredMargin / 100)) ∧
    (analyzePrice (Except.error ()) input rand).priceRange.suggested =
      some (input.cost * (1 + input.desiredMargin / 100)) ∧
    (analyzePrice (Except.error ()) input rand).priceRange.premium =
      some (input.cost * (1 + input.desiredMargin / 100) * (6/5)) ∧
    (analyzePrice (Except.error ()) input rand).profitMargin =
      JsNum.fin input.desiredMargin ∧
    (analyzePrice (Except.error ()) input rand).confidenceScore = some 50 ∧
    (analyzePrice (Except.error ()) input rand).strategy = some "Cost-Plus" ∧
    (analyzePrice (Except.error ()) input rand).evidence =
      some ["Cost basis calculation"] ∧
    (analyzePrice (Except.error ()) input rand).seasonality.adjustmentFactor = 1 ∧
    (analyzePrice (Except.error ()) input rand).competitors = [] ∧
    (analyzePrice (Except.error ()) inputA rand0).recommendedPrice = some 120 := by
  refine ⟨rfl, rfl, rfl, rfl, rfl, rfl, rfl, rfl, rfl, rfl, ?_⟩
  show some ((jsRound ((inputA.cost * (1 + inputA.desiredMargin / 100)) * 100) : ℚ) / 100) =
    some 120
  norm_num [inputA, jsRound]

/-- C8 counterexample: a payload with recommendedPrice 0 is not rejected
and the success path produces a result with recommendedPrice 0 and
profitMargin equal to -Infinity, which is not finite. -/
theorem C8_counterexample :
    (analyzePrice (Except.ok zeroPriceRaw) inputA rand0).recommendedPrice = some 0 ∧
    (analyzePrice (Except.ok zeroPriceRaw) inputA rand0).profitMargin = JsNum.negInf ∧
    JsNum.negInf.finite = false := by
  refine ⟨rfl, ?_, rfl⟩
  show profitMarginJs zeroPriceRaw.recommendedPrice inputA.cost = JsNum.negInf
  have : zeroPriceRaw.recommendedPrice = some 0 := rfl
  rw [this]
  simp only [profitMarginJs, jsOfOpt, JsNum.sub, JsNum.div, JsNum.mul]
  norm_num [inputA]

/-- C8 amended: the division of line 182 is unguarded: when the payload
carries recommendedPrice 0 the success path still completes, and the
resulting profitMargin is never finite — it is -Infinity for positive
cost, NaN for zero cost, and +Infinity for negative cost. -/
theorem C8_zero_price_nonfinite (data : RawAiJson) (input : ProductInput)
    (rand : ℕ → RandDraws) (h : data.recommendedPrice = some 0) :
    (analyzePrice (Except.ok data) input rand).profitMargin.finite = false ∧
    (0 < input.cost →
      (analyzePrice (Except.ok data) input rand).profitMargin = JsNum.negInf) ∧
    (input.cost = 0 →
      (analyzePrice (Except.ok data) input rand).profitMargin = JsNum.nan) ∧
    (input.cost < 0 →
      (analyzePrice (Except.ok data) input rand).profitMargin = JsNum.posInf) := by
  have hdiv : ∀ a : ℚ, JsNum.div (JsNum.fin a) (JsNum.fin 0) =
      (if a = 0 then JsNum.nan else if a > 0 then JsNum.posInf else JsNum.negInf) := by
    intro a
    show (if (0 : ℚ) = 0
        then (if a = 0 then JsNum.nan else if a > 0 then JsNum.posInf else JsNum.negInf)
        else JsNum.fin (a / 0)) = _
    rw [if_pos rfl]
  have hmulPos : JsNum.mul JsNum.posInf (JsNum.fin 100) = JsNum.posInf := by
    show (if (100 : ℚ) = 0 then JsNum.nan
        else if (100 : ℚ) > 0 then JsNum.posInf else JsNum.negInf) = _
    norm_num
  have hmulNeg : JsNum.mul JsNum.negInf (JsNum.fin 100) = JsNum.negInf := by
    show (if (100 : ℚ) = 0 then JsNum.nan
        else if (100 : ℚ) > 0 then JsNum.negInf else JsNum.posInf) = _
    norm_num
  have hm : (analyzePrice (Except.ok data) input rand).profitMargin =
      profitMarginJs data.recommendedPrice input.cost := rfl
  have hpm : profitMarginJs (some 0) input.cost =
      JsNum.mul (JsNum.div (JsNum.fin (0 - input.cost)) (JsNum.fin 0)) (JsNum.fin 100) := rfl
  rw [hm, h, hpm, hdiv]
  rcases lt_trichotomy input.cost 0 with hc | hc | hc
  · rw [if_neg (by intro he; rw [sub_eq_zero] at he; exact absurd he.symm (ne_of_lt hc)),
      if_pos (by linarith : (0 : ℚ) - input.cost > 0), hmulPos]
    exact ⟨rfl, fun hx => absurd hx (by linarith), fun hx => absurd hx (by linarith),
      fun _ => rfl⟩
  · rw [hc]
    norm_num
    exact ⟨rfl, rfl⟩
  · rw [if_neg (by intro he; rw [sub_eq_zero] at he; exact absurd he.symm (ne_of_gt hc)),
      if_neg (by linarith : ¬ ((0 : ℚ) - input.cost > 0)), hmulNeg]
    exact ⟨rfl, fun _ => rfl, fun hx => absurd hx (by linarith),
      fun hx => absurd hx (by linarith)⟩

/-- Witness for C8 at the zero-price payload and the cost-100 input. -/
theorem C8_zero_price_nonfinite_witness :
    (analyzePrice (Except.ok zeroPriceRaw) inputA rand0).profitMargin.finite = false ∧
    (analyzePrice (Except.ok zeroPriceRaw) inputA rand0).profitMargin = JsNum.negInf :=
  have h := C8_zero_price_nonfinite zeroPriceRaw inputA rand0 rfl
  ⟨h.1, h.2.1 (by norm_num [inputA])⟩

/-- C10: an explicit seasonalityFactor of 0 is replaced by the neutral
factor 1 (the or-else default of line 189 also fires on an explicit
zero), an absent factor defaults to 1, and the resulting
adjustmentFactor is never 0. -/
theorem C10_seasonality_zero_replaced (data : RawAiJson) (input : ProductInput)
    (rand : ℕ → RandDraws) :
    (analyzePrice (Except.ok data) input rand).seasonality.adjustmentFactor ≠ 0 ∧
    (data.seasonalityFactor = some 0 →
      (analyzePrice (Except.ok data) input rand).seasonality.adjustmentFactor = 1) ∧
    (data.seasonalityFactor = none →
      (analyzePrice (Except.ok data) input rand).seasonality.adjustmentFactor = 1) := by
  have hval : (analyzePrice (Except.ok data) input rand).seasonality.adjustmentFactor =
      (match data.seasonalityFactor with
        | none => 1
        | some f => if f = 0 then 1 else f) := rfl
  rcases hd : data.seasonalityFactor with _ | f
  · rw [hval, hd]
    exact ⟨one_ne_zero, fun h => Option.noConfusion h, fun _ => rfl⟩
  · rw [hval, hd]
    by_cases hf : f = 0
    · subst hf
      refine ⟨?_, fun _ => ?_, fun h => Option.noConfusion h⟩
      · show (if (0 : ℚ) = 0 then 1 else (0 : ℚ)) ≠ 0
        rw [if_pos rfl]
        exact one_ne_zero
      · show (if (0 : ℚ) = 0 then 1 else (0 : ℚ)) = 1
        rw [if_pos rfl]
    · refine ⟨?_, fun h => absurd (Option.some.inj h) hf, fun h => Option.noConfusion h⟩
      show (if f = 0 then 1 else f) ≠ 0
      rw [if_neg hf]
      exact hf

/-- The unit square of pairs of uniform draws, as a subset of the real
plane carrying Lebesgue measure: the first coordinate models the first
`Math.random()` call of line 166, the second the conditional second call. -/
def unitSquare : Set (ℝ × ℝ) := Set.Ico 0 1 ×ˢ Set.Ico 0 1

/-- The event, inside the unit square, that the stock-status draw
returns the given label. -/
def drawEvent (s : String) : Set (ℝ × ℝ) :=
  {p ∈ unitSquare | stockStatusDraw p.1 p.2 = s}

lemma drawEvent_low :
    drawEvent "Low Stock" = Set.Ioo (4/5 : ℝ) 1 ×ˢ Set.Ico (0 : ℝ) 1 := by
  ext p
  simp only [drawEvent, unitSquare, stockStatusDraw, Set.mem_sep_iff, Set.mem_prod,
    Set.mem_Ico, Set.mem_Ioo]
  constructor
  · rintro ⟨⟨⟨hx0, hx1⟩, hy0, hy1⟩, hs⟩
    split_ifs at hs with h1 h2
    · exact ⟨⟨h1, hx1⟩, hy0, hy1⟩
    · simp at hs
    · simp at hs
  · rintro ⟨⟨hx45, hx1⟩, hy0, hy1⟩
    refine ⟨⟨⟨by linarith, hx1⟩, hy0, hy1⟩, ?_⟩
    rw [if_pos hx45]

lemma drawEvent_in :
    drawEvent "In Stock" = Set.Icc (0 : ℝ) (4/5) ×ˢ Set.Icc (0 : ℝ) (9/10) := by
  ext p
  simp only [drawEvent, unitSquare, stockStatusDraw, Set.mem_sep_iff, Set.mem_prod,
    Set.mem_Ico, Set.mem_Icc]
  constructor
  · rintro ⟨⟨⟨hx0, hx1⟩, hy0, hy1⟩, hs⟩
    split_ifs at hs with h1 h2
    · simp at hs
    · simp at hs
    · exact ⟨⟨hx0, not_lt.mp h1⟩, hy0, not_lt.mp h2⟩
  · rintro ⟨⟨hx0, hx45⟩, hy0, hy9⟩
    refine ⟨⟨⟨hx0, by linarith⟩, hy0, by linarith⟩, ?_⟩
    rw [if_neg (not_lt.mpr hx45), if_neg (not_lt.mpr hy9)]

lemma drawEvent_out :
    drawEvent "Out of Stock" = Set.Icc (0 : ℝ) (4/5) ×ˢ Set.Ioo (9/10 : ℝ) 1 := by
  ext p
  simp only [drawEvent, unitSquare, stockStatusDraw, Set.mem_sep_iff, Set.mem_prod,
    Set.mem_Ico, Set.mem_Icc, Set.mem_Ioo]
  constructor
  · rintro ⟨⟨⟨hx0, hx1⟩, hy0, hy1⟩, hs⟩
    split_ifs at hs with h1 h2
    · simp at hs
    · exact ⟨⟨hx0, not_lt.mp h1⟩, h2, hy1⟩
    · simp at hs
  · rintro ⟨⟨hx0, hx45⟩, hy9, hy1⟩
    refine ⟨⟨⟨hx0, by linarith⟩, by linarith, hy1⟩, ?_⟩
    rw [if_neg (not_lt.mpr hx45), if_pos hy9]

lemma volume_drawEvent_low :
    MeasureTheory.volume (drawEvent "Low Stock") = ENNReal.ofReal (1/5) := by
  rw [drawEvent_low, MeasureTheory.Measure.volume_eq_prod, MeasureTheory.Measure.prod_prod,
    Real.volume_Ioo, Real.volume_Ico,
    show (1 : ℝ) - 4/5 = 1/5 by norm_num, show (1 : ℝ) - 0 = 1 by norm_num,
    ENNReal.ofReal_one, mul_one]

lemma volume_drawEvent_in :
    MeasureTheory.volume (drawEvent "In Stock") = ENNReal.ofReal (18/25) := by
  rw [drawEvent_in, MeasureTheory.Measure.volume_eq_prod, MeasureTheory.Measure.prod_prod,
    Real.volume_Icc, Real.volume_Icc,
    show (4 : ℝ)/5 - 0 = 4/5 by norm_num, show (9 : ℝ)/10 - 0 = 9/10 by norm_num,
    ← ENNReal.ofReal_mul (by norm_num)]
  norm_num

lemma volume_drawEvent_out :
    MeasureTheory.volume (drawEvent "Out of Stock") = ENNReal.ofReal (2/25) := by
  rw [drawEvent_out, MeasureTheory.Measure.volume_eq_prod, MeasureTheory.Measure.prod_prod,
    Real.volume_Icc, Real.volume_Ioo,
    show (4 : ℝ)/5 - 0 = 4/5 by norm_num, show (1 : ℝ) - 9/10 = 1/10 by norm_num,
    ← ENNReal.ofReal_mul (by norm_num)]
  norm_num

/-- C7 counterexample: under independent uniform draws on [0,1), the
event that a competitor entry is drawn Low Stock has measure 1/5 on the
unit square, not the 1/10 the claim asserts. -/
theorem C7_counterexample :
    MeasureTheory.volume (drawEvent "Low Stock") = ENNReal.ofReal (1/5) ∧
    ENNReal.ofReal (1/5 : ℝ) ≠ ENNReal.ofReal (1/10 : ℝ) := by
  refine ⟨volume_drawEvent_low, ?_⟩
  rw [Ne, ENNReal.ofReal_eq_ofReal_iff (by norm_num) (by norm_num)]
  norm_num

/-- C7 amended: each competitor entry draws its stock status by the
nested conditional of line 166 on its own pair of random values, and
under independent uniform draws on [0,1) the outcome measures are
0.72 In Stock, 0.20 Low Stock and 0.08 Out of Stock — not the
0.8 / 0.1 / 0.1 of the claim (the first draw above 0.8 already yields
Low Stock, and only otherwise does the second draw decide between Out
of Stock and In Stock). -/
theorem C7_stock_status_distribution :
    (∀ (c : RawCompetitor) (d : RandDraws),
      (mkCompetitor c d).stockStatus = stockStatusDraw d.r1 d.r2) ∧
    MeasureTheory.volume (drawEvent "In Stock") = ENNReal.ofReal (18/25) ∧
    MeasureTheory.volume (drawEvent "Low Stock") = ENNReal.ofReal (1/5) ∧
    MeasureTheory.volume (drawEvent "Out of Stock") = ENNReal.ofReal (2/25) :=
  ⟨fun _ _ => rfl, volume_drawEvent_in, volume_drawEvent_low, volume_drawEvent_out⟩

/-- Witness for C10 at the payload carrying an explicit seasonalityFactor 0. -/
theorem C10_seasonality_zero_replaced_witness :
    (analyzePrice (Except.ok sampleRaw) inputA rand0).seasonality.adjustmentFactor ≠ 0 ∧
    (analyzePrice (Except.ok sampleRaw) inputA rand0).seasonality.adjustmentFactor = 1 :=
  have h := C10_seasonality_zero_replaced sampleRaw inputA rand0
  ⟨h.1, h.2.1 rfl⟩

end PriceProphet
